import Mathlib

/-!
Shallow embedding of the go-brave-search client library (package bravesearch).

Pure data and algorithms (URL/query construction, header parsing, error
classification, option application, the retry loop's control flow) are
translated directly from the Go source.  Go machine integers (`int`) are
modelled as `Int` (no claim touches overflow), Go strings as Lean `String`
with explicit UTF-8 byte length where the source uses `len`, Go `nil`
pointers as `Option`, and fallible operations as `Except`/`Option`.
The HTTP transport is an oracle `Nat → TransportOutcome` giving the outcome
of each attempt, and the context's cancellation signal during the inter-retry
backoff is an oracle `Nat → Bool`.
-/

namespace BraveSearch

/-! ## Constants (constants.go) -/

def BaseURL : String := "https://api.search.brave.com/res/v1"

def WebSearchEndpoint : String := "/web/search"

def SafeSearchOff : String := "off"

def SafeSearchModerate : String := "moderate"

def SafeSearchStrict : String := "strict"

def FreshnessDay : String := "pd"

def FreshnessWeek : String := "pw"

def FreshnessMonth : String := "pm"

def FreshnessYear : String := "py"

def DefaultCount : Int := 20

def DefaultOffset : Int := 0

def DefaultSafeSearch : String := SafeSearchModerate

def DefaultCountry : String := "US"

def DefaultSearchLang : String := "en"

def DefaultUILang : String := "en-US"

/-- Seconds; the Go source stores `time.Duration(DefaultTimeout) * time.Second`. -/
def DefaultTimeout : Int := 30

def DefaultMaxRetries : Int := 2

def DefaultUserAgent : String := "go-brave-search/1.0"

def DefaultTextDecor : Bool := true

def DefaultSpellCheck : Bool := true

def HeaderRateLimitLimit : String := "X-RateLimit-Limit"

def HeaderRateLimitRemaining : String := "X-RateLimit-Remaining"

def HeaderRateLimitReset : String := "X-RateLimit-Reset"

def HeaderContentEncoding : String := "Content-Encoding"

def ResultFilterNews : String := "news"

def ResultFilterVideos : String := "videos"

def UnitMetric : String := "metric"

def UnitImperial : String := "imperial"

/-! ## Go string-library primitives used by the source -/

/-- Whitespace per Go's `unicode.IsSpace` on the Latin-1 range (the range
exercised by this library's callers): space, tab, newline, vertical tab,
form feed, carriage return, NEL, NBSP. -/
def goIsSpace (ch : Char) : Bool :=
  ch = ' ' || ch = '\t' || ch = '\n' || ch = '\x0b' || ch = '\x0c' ||
  ch = '\r' || ch = '\u0085' || ch = '\u00A0'

/-- UTF-8 byte count of a character list; Go's `len` on a string counts bytes. -/
def utf8Len : List Char → Nat
  | [] => 0
  | c :: rest => c.utf8Size + utf8Len rest

/-- Go `len(s)` for a string: its UTF-8 byte count. -/
def goLen (s : String) : Nat := utf8Len s.data

/-- Accumulator pass of Go's `strings.Fields`: split around runs of whitespace. -/
def fieldsAux : List Char → List Char → List String
  | [], acc => if acc.isEmpty then [] else [String.mk acc.reverse]
  | c :: rest, acc =>
    if goIsSpace c then
      if acc.isEmpty then fieldsAux rest []
      else String.mk acc.reverse :: fieldsAux rest []
    else fieldsAux rest (c :: acc)

/-- Go `strings.Fields`. -/
def goFields (s : String) : List String := fieldsAux s.data []

/-- Accumulator pass of Go's `strings.Split(s, ",")`. -/
def splitCommaAux : List Char → List Char → List String
  | [], acc => [String.mk acc.reverse]
  | c :: rest, acc =>
    if c = ',' then String.mk acc.reverse :: splitCommaAux rest []
    else splitCommaAux rest (c :: acc)

/-- Go `strings.Split(s, ",")`; always returns at least one element. -/
def goSplitComma (s : String) : List String := splitCommaAux s.data []

def dropLeadingSpace : List Char → List Char
  | [] => []
  | c :: rest => if goIsSpace c then dropLeadingSpace rest else c :: rest

/-- Go `strings.TrimSpace`: drop leading and trailing whitespace. -/
def goTrimSpace (s : String) : String :=
  String.mk (dropLeadingSpace (dropLeadingSpace s.data).reverse).reverse

def digitsToNatAux (acc : Nat) : List Char → Option Nat
  | [] => some acc
  | c :: rest =>
    if c.isDigit then digitsToNatAux (acc * 10 + (c.toNat - '0'.toNat)) rest
    else none

/-- Parse a non-empty all-digit run; `none` on empty input or any non-digit. -/
def digitsToNat : List Char → Option Nat
  | [] => none
  | c :: rest => digitsToNatAux 0 (c :: rest)

/-- Go `strconv.Atoi`: optional sign, then at least one digit, nothing else.
Overflow is not modelled (no claim involves values near 2^63). -/
def goAtoi (s : String) : Option Int :=
  match s.data with
  | [] => none
  | '+' :: rest => (digitsToNat rest).map Int.ofNat
  | '-' :: rest => (digitsToNat rest).map (fun n => -(n : Int))
  | l => (digitsToNat l).map Int.ofNat

def containsAux (sub : List Char) : List Char → Bool
  | [] => sub.isEmpty
  | c :: rest => sub.isPrefixOf (c :: rest) || containsAux sub rest

/-- Go `strings.Contains`. -/
def goContains (s sub : String) : Bool := containsAux sub.data s.data

/-- Go `strings.HasPrefix`. -/
def goHasPrefix (s pre : String) : Bool := pre.data.isPrefixOf s.data

/-- Go `strings.HasSuffix`. -/
def goHasSuffix (s suf : String) : Bool := suf.data.reverse.isPrefixOf s.data.reverse

/-- Go `strconv.FormatBool`. -/
def formatBool (b : Bool) : String := if b then "true" else "false"

/-- `http.Header.Get`: first value for the key, or "" when absent.
Keys are stored already in canonical form. -/
def headerGet (headers : List (String × String)) (key : String) : String :=
  match headers.find? (fun kv => kv.fst == key) with
  | some kv => kv.snd
  | none => ""

/-! ## Request parameters (types.go) -/

/-- `WebSearchParams`; Lean defaults are the Go zero values of the fields. -/
structure WebSearchParams where
  query : String := ""
  country : String := ""
  searchLang : String := ""
  uiLang : String := ""
  count : Int := 0
  offset : Int := 0
  safeSearch : String := ""
  freshness : String := ""
  textDecorations : Bool := false
  spellcheck : Bool := false
  resultFilter : String := ""
  goggles : String := ""
  units : String := ""
  extraSnippets : Bool := false
  summary : Bool := false
deriving Repr, DecidableEq

/-! ## Response types (types.go).  The sections whose payloads the source
leaves untyped (`[]any` / `any`) are modelled by their typed envelope only. -/

structure Profile where
  name : String := ""
  url : String := ""
  longName : String := ""
  img : String := ""
deriving Repr, DecidableEq

structure ButtonResult where
  type : String := ""
  title : String := ""
  url : String := ""
deriving Repr, DecidableEq

structure DeepResults where
  buttons : List ButtonResult := []
deriving Repr, DecidableEq

structure MetaURL where
  scheme : String := ""
  netloc : String := ""
  hostname : String := ""
  favicon : String := ""
  path : String := ""
deriving Repr, DecidableEq

structure Thumbnail where
  src : String := ""
  original : String := ""
  logo : Bool := false
deriving Repr, DecidableEq

structure SearchResult where
  title : String := ""
  url : String := ""
  isSourceLocal : Bool := false
  isSourceBoth : Bool := false
  description : String := ""
  pageAge : String := ""
  pageFetched : String := ""
  profile : Option Profile := none
  language : String := ""
  familyFriendly : Bool := false
  type : String := ""
  subtype : String := ""
  isLive : Bool := false
  deepResults : Option DeepResults := none
  metaURL : Option MetaURL := none
  thumbnail : Option Thumbnail := none
  age : String := ""
deriving Repr, DecidableEq

structure Search where
  type : String := ""
  results : List SearchResult := []
  familyFriendly : Bool := false
deriving Repr, DecidableEq

structure Query where
  original : String := ""
  altered : String := ""
  showStrictWarning : Bool := false
  isNavigational : Bool := false
  isNewsBreaking : Bool := false
  spellcheckOff : Bool := false
  country : String := ""
  badResults : Bool := false
  shouldFallback : Bool := false
  postalCode : String := ""
  city : String := ""
  headerCountry : String := ""
  moreResultsAvailable : Bool := false
  state : String := ""
deriving Repr, DecidableEq

structure MixedResultRef where
  type : String := ""
  index : Int := 0
  all : Bool := false
deriving Repr, DecidableEq

structure MixedResponse where
  type : String := ""
  main : List MixedResultRef := []
  top : List MixedResultRef := []
  side : List MixedResultRef := []
deriving Repr, DecidableEq

structure Discussions where
  type : String := ""
deriving Repr, DecidableEq

structure FAQ where
  type : String := ""
deriving Repr, DecidableEq

structure GraphInfobox where
  type : String := ""
deriving Repr, DecidableEq

structure Locations where
  type : String := ""
deriving Repr, DecidableEq

structure News where
  type : String := ""
deriving Repr, DecidableEq

structure Videos where
  type : String := ""
deriving Repr, DecidableEq

structure Summarizer where
  type : String := ""
deriving Repr, DecidableEq

/-- Top-level decoded search response; pointer-valued sections are `Option`. -/
structure WebSearchResponse where
  type : String := ""
  discussions : Option Discussions := none
  faq : Option FAQ := none
  infobox : Option GraphInfobox := none
  locations : Option Locations := none
  mixed : Option MixedResponse := none
  news : Option News := none
  query : Option Query := none
  videos : Option Videos := none
  web : Option Search := none
  summarizer : Option Summarizer := none
deriving Repr, DecidableEq

structure RateLimit where
  limit : Int := 0
  remaining : Int := 0
  reset : Int := 0
deriving Repr, DecidableEq

/-! ## Errors (errors.go) -/

/-- The package's sentinel error values, plus the `fmt.Errorf` fallback that
`NewHTTPError` creates for an unmapped sub-500 status. -/
inductive ErrKind where
  | missingAPIKey
  | invalidAPIKey
  | rateLimit
  | unauthorized
  | forbidden
  | notFound
  | serverError
  | invalidResponse
  | invalidParameters
  | queryTooLong
  | emptyQuery
  | unexpectedStatus (code : Nat)
deriving Repr, DecidableEq

/-- `APIError`: status code, message (the HTTP status line), wrapped error.
`err = none` models a nil wrapped error. -/
structure APIError where
  statusCode : Nat := 0
  message : String := ""
  err : Option ErrKind := none
deriving Repr, DecidableEq

/-- The Go `error` values this client can return.  `transport` is an opaque
transport-level error (connection failure, timeout) identified by an id;
`noResponse` is the `fmt.Errorf("no response: %w", respErr)` after a loop that
never ran; `gzipReaderFailed` the wrapped `gzip.NewReader` failure;
`ctxCancelled` the context's `ctx.Err()`. -/
inductive GoError where
  | sentinel (k : ErrKind)
  | api (e : APIError)
  | transport (id : Nat)
  | ctxCancelled
  | noResponse
  | gzipReaderFailed
deriving Repr, DecidableEq

/-- `errors.Is(e, target)` for a sentinel target: unwraps an `APIError` to its
wrapped kind; sentinels and transport errors unwrap no further. -/
def goErrorsIs (err : GoError) (target : ErrKind) : Bool :=
  match err with
  | .sentinel k => k == target
  | .api e =>
    match e.err with
    | some k => k == target
    | none => false
  | _ => false

/-- `errors.As(err, &apiErr)`: the `*APIError` in the unwrap chain, if any. -/
def findAPIError : GoError → Option APIError
  | .api e => some e
  | _ => none

/-- `errors.Is(apiErr.Err, sentinel)` where the wrapped error may be nil. -/
def errKindIs (o : Option ErrKind) (target : ErrKind) : Bool :=
  match o with
  | some k => k == target
  | none => false

/-- An HTTP response as observed by this client: status code, status line,
headers, whether an advertised gzip body is readable, and the result of
JSON-unmarshalling its (decompressed) body (`none` = unmarshal fails). -/
structure HTTPResponse where
  statusCode : Nat := 0
  status : String := ""
  headers : List (String × String) := []
  gzipValid : Bool := true
  decoded : Option WebSearchResponse := none
deriving Repr, DecidableEq

/-- `NewHTTPError`: classify a non-success response by status code. -/
def NewHTTPError (resp : HTTPResponse) : APIError :=
  let err : ErrKind :=
    if resp.statusCode == 401 then .unauthorized
    else if resp.statusCode == 403 then .forbidden
    else if resp.statusCode == 404 then .notFound
    else if resp.statusCode == 429 then .rateLimit
    else if 500 ≤ resp.statusCode then .serverError
    else .unexpectedStatus resp.statusCode
  { statusCode := resp.statusCode, message := resp.status, err := some err }

/-- `IsRateLimitError`. -/
def IsRateLimitError (err : GoError) : Bool :=
  match findAPIError err with
  | some apiErr => errKindIs apiErr.err .rateLimit || apiErr.statusCode == 429
  | none => goErrorsIs err .rateLimit

/-- `IsAuthError`. -/
def IsAuthError (err : GoError) : Bool :=
  match findAPIError err with
  | some apiErr =>
    errKindIs apiErr.err .unauthorized || errKindIs apiErr.err .invalidAPIKey ||
      apiErr.statusCode == 401
  | none => goErrorsIs err .unauthorized || goErrorsIs err .invalidAPIKey

/-- `IsServerError`. -/
def IsServerError (err : GoError) : Bool :=
  match findAPIError err with
  | some apiErr => errKindIs apiErr.err .serverError || 500 ≤ apiErr.statusCode
  | none => goErrorsIs err .serverError

/-! ## Configuration and options (config.go, options.go) -/

/-- `ClientConfig`; `timeoutSeconds` carries the seconds value stored as a
`time.Duration`, and `hasCustomHTTPClient` models whether the opaque
`HTTPClient` pointer is non-nil. -/
structure ClientConfig where
  apiKey : String := ""
  baseURL : String := ""
  timeoutSeconds : Int := 0
  maxRetries : Int := 0
  userAgent : String := ""
  defaultCountry : String := ""
  defaultSearchLang : String := ""
  defaultUILang : String := ""
  hasCustomHTTPClient : Bool := false
deriving Repr, DecidableEq

/-- `ClientOption`: mutates a draft configuration or reports an error. -/
def ClientOption : Type := ClientConfig → Except GoError ClientConfig

def WithTimeout (seconds : Int) : ClientOption :=
  fun c => .ok { c with timeoutSeconds := seconds }

def WithRetries (retries : Int) : ClientOption :=
  fun c =>
    if retries < 0 then .error (.sentinel .invalidParameters)
    else .ok { c with maxRetries := retries }

def WithUserAgent (userAgent : String) : ClientOption :=
  fun c => .ok { c with userAgent := userAgent }

def WithBaseURL (baseURL : String) : ClientOption :=
  fun c => .ok { c with baseURL := baseURL }

def WithHTTPClient : ClientOption :=
  fun c => .ok { c with hasCustomHTTPClient := true }

def WithDefaultCountry (country : String) : ClientOption :=
  fun c => .ok { c with defaultCountry := country }

def WithDefaultSearchLanguage (lang : String) : ClientOption :=
  fun c => .ok { c with defaultSearchLang := lang }

def WithDefaultUILanguage (lang : String) : ClientOption :=
  fun c => .ok { c with defaultUILang := lang }

/-- `applyOptions`: apply in order; the first error aborts. -/
def applyOptions : ClientConfig → List ClientOption → Except GoError ClientConfig
  | config, [] => .ok config
  | config, option :: rest =>
    match option config with
    | .error e => .error e
    | .ok c => applyOptions c rest

/-- The draft configuration `NewClient` builds before applying options. -/
def defaultClientConfig (apiKey : String) : ClientConfig :=
  { apiKey := apiKey
    baseURL := BaseURL
    timeoutSeconds := DefaultTimeout
    maxRetries := DefaultMaxRetries
    userAgent := DefaultUserAgent
    defaultCountry := DefaultCountry
    defaultSearchLang := DefaultSearchLang
    defaultUILang := DefaultUILang }

/-- `NewClient`: reject an empty key, then apply options to the defaults.
The returned client is identified with its configuration (its only other
field is the opaque HTTP handle). -/
def NewClient (apiKey : String) (options : List ClientOption) :
    Except GoError ClientConfig :=
  if apiKey = "" then .error (.sentinel .missingAPIKey)
  else applyOptions (defaultClientConfig apiKey) options

/-! ## Request construction (brave_search.go) -/

/-- `NewWebSearchParams` (web_search.go): constructor defaults. -/
def NewWebSearchParams : WebSearchParams :=
  { count := DefaultCount
    offset := DefaultOffset
    safeSearch := DefaultSafeSearch
    textDecorations := DefaultTextDecor
    spellcheck := DefaultSpellCheck }

/-- The path part of `buildRequestURL`: add a "/" only when the base URL does
not end with one and the endpoint does not start with one, then append. -/
def buildRequestPath (baseURL endpoint : String) : String :=
  if !(goHasSuffix baseURL "/") && !(goHasPrefix endpoint "/") then
    baseURL ++ "/" ++ endpoint
  else baseURL ++ endpoint

/-- The query-string pairs added by `buildRequestURL`, in source order.
The Go code adds them to a `url.Values`; since every key here is distinct the
ordered association list is a faithful view of that map. -/
def buildRequestValues (p : WebSearchParams) : List (String × String) :=
  (if p.query ≠ "" then [("q", p.query)] else []) ++
  (if p.country ≠ "" then [("country", p.country)] else []) ++
  (if p.searchLang ≠ "" then [("search_lang", p.searchLang)] else []) ++
  (if p.uiLang ≠ "" then [("ui_lang", p.uiLang)] else []) ++
  (if p.count > 0 then [("count", toString p.count)] else []) ++
  (if p.offset > 0 then [("offset", toString p.offset)] else []) ++
  (if p.safeSearch ≠ "" then [("safesearch", p.safeSearch)] else []) ++
  (if p.freshness ≠ "" then [("freshness", p.freshness)] else []) ++
  [("text_decorations", formatBool p.textDecorations)] ++
  [("spellcheck", formatBool p.spellcheck)] ++
  (if p.resultFilter ≠ "" then [("result_filter", p.resultFilter)] else []) ++
  (if p.goggles ≠ "" then [("goggles", p.goggles)] else []) ++
  (if p.units ≠ "" then [("units", p.units)] else []) ++
  (if p.extraSnippets then [("extra_snippets", "true")] else []) ++
  (if p.summary then [("summary", "true")] else [])

/-- The `X-RateLimit-Limit` block of `parseRateLimitHeaders`. -/
def parseLimitHeader (resp : HTTPResponse) (rl : RateLimit) : RateLimit :=
  let limitStr := headerGet resp.headers HeaderRateLimitLimit
  if limitStr ≠ "" then
    let limits := goSplitComma limitStr
    if limits.length > 0 then
      match goAtoi (goTrimSpace (limits.headD "")) with
      | some limit => { rl with limit := limit }
      | none => rl
    else rl
  else rl

/-- The `X-RateLimit-Remaining` block of `parseRateLimitHeaders`. -/
def parseRemainingHeader (resp : HTTPResponse) (rl : RateLimit) : RateLimit :=
  let remainingStr := headerGet resp.headers HeaderRateLimitRemaining
  if remainingStr ≠ "" then
    let remaining := goSplitComma remainingStr
    if remaining.length > 0 then
      match goAtoi (goTrimSpace (remaining.headD "")) with
      | some remain => { rl with remaining := remain }
      | none => rl
    else rl
  else rl

/-- The `X-RateLimit-Reset` block of `parseRateLimitHeaders`. -/
def parseResetHeader (resp : HTTPResponse) (rl : RateLimit) : RateLimit :=
  let resetStr := headerGet resp.headers HeaderRateLimitReset
  if resetStr ≠ "" then
    let resets := goSplitComma resetStr
    if resets.length > 0 then
      match goAtoi (goTrimSpace (resets.headD "")) with
      | some reset => { rl with reset := reset }
      | none => rl
    else rl
  else rl

/-- `parseRateLimitHeaders`: start from the zero value and run the three
header blocks in source order; a failed or absent parse leaves its field. -/
def parseRateLimitHeaders (resp : HTTPResponse) : RateLimit :=
  parseResetHeader resp (parseRemainingHeader resp (parseLimitHeader resp {}))

/-! ## The retry loop and `makeRequest` (brave_search.go) -/

/-- Outcome of one call of `c.http.Do(req)`: a transport-level error or a
response. -/
inductive TransportOutcome where
  | err (id : Nat)
  | resp (r : HTTPResponse)
deriving Repr, DecidableEq

/-- How `makeRequest`'s `for attempt := 0; attempt <= MaxRetries` loop exits.
Each constructor carries the number of attempts issued. -/
inductive LoopExit where
  | broke (r : HTTPResponse) (attempts : Nat)
  | errTransport (id : Nat) (attempts : Nat)
  | errHTTP (r : HTTPResponse) (attempts : Nat)
  | cancelled (attempts : Nat)
deriving Repr, DecidableEq

/-- The retry loop with `remaining = MaxRetries - attempt` further attempts
allowed after the current one.  Mirrors the source order: break on a
transport success with status < 500; on the last attempt return the transport
error or the response; otherwise back off, checking the context. -/
def retryLoopAux (transport : Nat → TransportOutcome) (ctxDone : Nat → Bool)
    (attempt : Nat) : Nat → LoopExit
  | 0 =>
    match transport attempt with
    | .err id => .errTransport id (attempt + 1)
    | .resp r =>
      if r.statusCode < 500 then .broke r (attempt + 1)
      else .errHTTP r (attempt + 1)
  | rem + 1 =>
    match transport attempt with
    | .err _ =>
      if ctxDone attempt then .cancelled (attempt + 1)
      else retryLoopAux transport ctxDone (attempt + 1) rem
    | .resp r =>
      if r.statusCode < 500 then .broke r (attempt + 1)
      else if ctxDone attempt then .cancelled (attempt + 1)
      else retryLoopAux transport ctxDone (attempt + 1) rem

/-- The whole loop, starting at attempt 0 with `maxRetries` retries left. -/
def retryLoop (transport : Nat → TransportOutcome) (ctxDone : Nat → Bool)
    (maxRetries : Nat) : LoopExit :=
  retryLoopAux transport ctxDone 0 maxRetries

/-- Observable outcome of `makeRequest`: the returned value or error, the
number of HTTP attempts issued, and the rate-limit triple if (and only if)
the source reached its `parseRateLimitHeaders` call. -/
structure MakeReqOut where
  result : Except GoError WebSearchResponse
  attempts : Nat
  rateLimitParsed : Option RateLimit
deriving Repr

/-- `makeRequest` for a GET with a non-nil `result` target (the only use in
this package).  A negative `maxRetries` would skip the loop entirely and hit
the `resp == nil` branch (`fmt.Errorf("no response: %w", respErr)`); with the
loop entered, the exit is classified as in the source: a non-200 break status
becomes `NewHTTPError` *before* any rate-limit parsing; on a 200 the
rate-limit headers are parsed, then the body is decompressed (a flagged but
unreadable gzip body fails) and unmarshalled (failure gives an `APIError`
wrapping `ErrInvalidResponse` with the response's status code). -/
def makeRequest (cfg : ClientConfig) (transport : Nat → TransportOutcome)
    (ctxDone : Nat → Bool) : MakeReqOut :=
  if cfg.maxRetries < 0 then
    { result := .error .noResponse, attempts := 0, rateLimitParsed := none }
  else
    match retryLoop transport ctxDone cfg.maxRetries.toNat with
    | .cancelled n =>
      { result := .error .ctxCancelled, attempts := n, rateLimitParsed := none }
    | .errTransport id n =>
      { result := .error (.transport id), attempts := n, rateLimitParsed := none }
    | .errHTTP r n =>
      { result := .error (.api (NewHTTPError r)), attempts := n,
        rateLimitParsed := none }
    | .broke r n =>
      if r.statusCode ≠ 200 then
        { result := .error (.api (NewHTTPError r)), attempts := n,
          rateLimitParsed := none }
      else
        let rl := parseRateLimitHeaders r
        if goContains (headerGet r.headers HeaderContentEncoding) "gzip"
            && !r.gzipValid then
          { result := .error .gzipReaderFailed, attempts := n,
            rateLimitParsed := some rl }
        else
          match r.decoded with
          | some v =>
            { result := .ok v, attempts := n, rateLimitParsed := some rl }
          | none =>
            let parseErr : APIError :=
              { statusCode := r.statusCode
                message := "Failed to parse response"
                err := some .invalidResponse }
            { result := .error (.api parseErr), attempts := n,
              rateLimitParsed := some rl }

/-! ## `WebSearch` (brave_search.go) -/

/-- The parameter-resolution step of `WebSearch`: clone the caller's params
(or start from the zero value), inject the query, then fill unset fields. -/
def resolveParams (cfg : ClientConfig) (query : String)
    (params : Option WebSearchParams) : WebSearchParams :=
  let sp : WebSearchParams :=
    match params with
    | some p => p
    | none => {}
  let sp := { sp with query := query }
  let sp := if sp.country = "" then { sp with country := cfg.defaultCountry } else sp
  let sp := if sp.searchLang = "" then { sp with searchLang := cfg.defaultSearchLang } else sp
  let sp := if sp.uiLang = "" then { sp with uiLang := cfg.defaultUILang } else sp
  let sp := if sp.count = 0 then { sp with count := DefaultCount } else sp
  let sp := if sp.safeSearch = "" then { sp with safeSearch := DefaultSafeSearch } else sp
  sp

/-- Observable outcome of `WebSearch`: the result or error, the number of
HTTP attempts, the request actually built (path plus query pairs; `none`
when validation failed before any request was built), and the rate-limit
parse as in `MakeReqOut`. -/
structure WebSearchOut where
  result : Except GoError WebSearchResponse
  attempts : Nat
  request : Option (String × List (String × String))
  rateLimitParsed : Option RateLimit
deriving Repr

/-- `WebSearch`: validate the query (empty check first, then the byte-length
and token-count limit), resolve parameters, build the request URL, and
delegate to `makeRequest`. -/
def WebSearch (cfg : ClientConfig) (transport : Nat → TransportOutcome)
    (ctxDone : Nat → Bool) (query : String) (params : Option WebSearchParams) :
    WebSearchOut :=
  if query = "" then
    { result := .error (.sentinel .emptyQuery), attempts := 0,
      request := none, rateLimitParsed := none }
  else if goLen query > 400 || (goFields query).length > 50 then
    { result := .error (.sentinel .queryTooLong), attempts := 0,
      request := none, rateLimitParsed := none }
  else
    let sp := resolveParams cfg query params
    let path := buildRequestPath cfg.baseURL WebSearchEndpoint
    let vals := buildRequestValues sp
    let mr := makeRequest cfg transport ctxDone
    match mr.result with
    | .error e =>
      { result := .error e, attempts := mr.attempts,
        request := some (path, vals), rateLimitParsed := mr.rateLimitParsed }
    | .ok r =>
      { result := .ok r, attempts := mr.attempts,
        request := some (path, vals), rateLimitParsed := mr.rateLimitParsed }

/-! ## Response accessors (web_search.go).  The pointer receiver may be nil,
so each takes an `Option WebSearchResponse`. -/

/-- `GetWebResults`: the web results, or an empty slice. -/
def GetWebResults (r : Option WebSearchResponse) : List SearchResult :=
  match r with
  | none => []
  | some resp =>
    match resp.web with
    | none => []
    | some w => w.results

/-- `HasMoreResults`. -/
def HasMoreResults (r : Option WebSearchResponse) : Bool :=
  match r with
  | none => false
  | some resp =>
    match resp.query with
    | none => false
    | some q => q.moreResultsAvailable

/-- `GetResultCount`. -/
def GetResultCount (r : Option WebSearchResponse) : Int :=
  match r with
  | none => 0
  | some resp =>
    match resp.web with
    | none => 0
    | some w => Int.ofNat w.results.length

/-- `GetFirstResult`: pointer to the first result, or nil. -/
def GetFirstResult (r : Option WebSearchResponse) : Option SearchResult :=
  match r with
  | none => none
  | some resp =>
    match resp.web with
    | none => none
    | some w => w.results.head?

/-- `IsWebResultEmpty`. -/
def IsWebResultEmpty (r : Option WebSearchResponse) : Bool :=
  match r with
  | none => true
  | some resp =>
    match resp.web with
    | none => true
    | some w => w.results.length == 0

/-! ## Auxiliary definitions used by the statements below -/

/-- An attempt outcome the retry loop treats as retriable: a transport-level
error, or a response with status ≥ 500. -/
def retriable : TransportOutcome → Bool
  | .err _ => true
  | .resp r => 500 ≤ r.statusCode

/-- The error the loop reports for a retriable final attempt: the transport
error itself, or `NewHTTPError` of the response. -/
def lastAttemptError : TransportOutcome → GoError
  | .err id => .transport id
  | .resp r => .api (NewHTTPError r)

/-- The value one rate-limit field should take according to the data-model
description: the integer parsed from the first comma-delimited token of the
header after trimming whitespace, zero when the header is absent or the
token does not parse. -/
def claimedRateLimitField (resp : HTTPResponse) (name : String) : Int :=
  match goAtoi (goTrimSpace ((goSplitComma (headerGet resp.headers name)).headD "")) with
  | some n => n
  | none => 0

/-- A 401 response carrying parseable rate-limit headers. -/
def cexResp401 : HTTPResponse :=
  { statusCode := 401
    status := "401 Unauthorized"
    headers := [(HeaderRateLimitLimit, "10, 15000"),
                (HeaderRateLimitRemaining, "9, 14999"),
                (HeaderRateLimitReset, "1, 1419704")] }

/-- A plain 503 response. -/
def cexResp503 : HTTPResponse :=
  { statusCode := 503, status := "503 Service Unavailable" }

/-- A response whose three rate-limit headers are the documented example. -/
def exampleRateLimitResp : HTTPResponse :=
  { statusCode := 200
    status := "200 OK"
    headers := [(HeaderRateLimitLimit, "10, 15000"),
                (HeaderRateLimitRemaining, "9, 14999"),
                (HeaderRateLimitReset, "1, 1419704")] }

/-! ## Helper lemmas -/

theorem splitCommaAux_length_pos (l : List Char) :
    ∀ acc, 0 < (splitCommaAux l acc).length := by
  induction l with
  | nil => intro acc; simp [splitCommaAux]
  | cons c rest ih =>
    intro acc
    by_cases h : c = ','
    · simp [splitCommaAux, h]
    · simpa [splitCommaAux, h] using ih (c :: acc)

theorem goSplitComma_length_pos (s : String) : 0 < (goSplitComma s).length :=
  splitCommaAux_length_pos s.data []

theorem parseLimitHeader_remaining (resp : HTTPResponse) (rl : RateLimit) :
    (parseLimitHeader resp rl).remaining = rl.remaining := by
  simp only [parseLimitHeader]
  split
  · split
    · split <;> rfl
    · rfl
  · rfl

theorem parseLimitHeader_reset (resp : HTTPResponse) (rl : RateLimit) :
    (parseLimitHeader resp rl).reset = rl.reset := by
  simp only [parseLimitHeader]
  split
  · split
    · split <;> rfl
    · rfl
  · rfl

theorem parseRemainingHeader_limit (resp : HTTPResponse) (rl : RateLimit) :
    (parseRemainingHeader resp rl).limit = rl.limit := by
  simp only [parseRemainingHeader]
  split
  · split
    · split <;> rfl
    · rfl
  · rfl

theorem parseRemainingHeader_reset (resp : HTTPResponse) (rl : RateLimit) :
    (parseRemainingHeader resp rl).reset = rl.reset := by
  simp only [parseRemainingHeader]
  split
  · split
    · split <;> rfl
    · rfl
  · rfl

theorem parseResetHeader_limit (resp : HTTPResponse) (rl : RateLimit) :
    (parseResetHeader resp rl).limit = rl.limit := by
  simp only [parseResetHeader]
  split
  · split
    · split <;> rfl
    · rfl
  · rfl

theorem parseResetHeader_remaining (resp : HTTPResponse) (rl : RateLimit) :
    (parseResetHeader resp rl).remaining = rl.remaining := by
  simp only [parseResetHeader]
  split
  · split
    · split <;> rfl
    · rfl
  · rfl

theorem claimedRateLimitField_absent (resp : HTTPResponse) (name : String)
    (h : headerGet resp.headers name = "") :
    claimedRateLimitField resp name = 0 := by
  simp only [claimedRateLimitField]
  rw [h]
  decide

theorem parseLimitHeader_limit (resp : HTTPResponse) (rl : RateLimit)
    (h0 : rl.limit = 0) :
    (parseLimitHeader resp rl).limit
      = claimedRateLimitField resp HeaderRateLimitLimit := by
  by_cases h : headerGet resp.headers HeaderRateLimitLimit = ""
  · rw [claimedRateLimitField_absent resp _ h]
    simp [parseLimitHeader, h, h0]
  · simp only [parseLimitHeader, claimedRateLimitField]
    rw [if_pos h, if_pos (goSplitComma_length_pos _)]
    cases hA : goAtoi (goTrimSpace ((goSplitComma (headerGet resp.headers HeaderRateLimitLimit)).headD "")) with
    | none => simp [hA, h0]
    | some v => simp [hA]

theorem parseRemainingHeader_remaining (resp : HTTPResponse) (rl : RateLimit)
    (h0 : rl.remaining = 0) :
    (parseRemainingHeader resp rl).remaining
      = claimedRateLimitField resp HeaderRateLimitRemaining := by
  by_cases h : headerGet resp.headers HeaderRateLimitRemaining = ""
  · rw [claimedRateLimitField_absent resp _ h]
    simp [parseRemainingHeader, h, h0]
  · simp only [parseRemainingHeader, claimedRateLimitField]
    rw [if_pos h, if_pos (goSplitComma_length_pos _)]
    cases hA : goAtoi (goTrimSpace ((goSplitComma (headerGet resp.headers HeaderRateLimitRemaining)).headD "")) with
    | none => simp [hA, h0]
    | some v => simp [hA]

theorem parseResetHeader_reset (resp : HTTPResponse) (rl : RateLimit)
    (h0 : rl.reset = 0) :
    (parseResetHeader resp rl).reset
      = claimedRateLimitField resp HeaderRateLimitReset := by
  by_cases h : headerGet resp.headers HeaderRateLimitReset = ""
  · rw [claimedRateLimitField_absent resp _ h]
    simp [parseResetHeader, h, h0]
  · simp only [parseResetHeader, claimedRateLimitField]
    rw [if_pos h, if_pos (goSplitComma_length_pos _)]
    cases hA : goAtoi (goTrimSpace ((goSplitComma (headerGet resp.headers HeaderRateLimitReset)).headD "")) with
    | none => simp [hA, h0]
    | some v => simp [hA]

/-! ## Claims -/

/-- C6: `parseRateLimitHeaders` fills each of limit/remaining/reset with the
integer parsed from the first comma-delimited token (after trimming) of its
`X-RateLimit-*` header; an absent header or an unparsable token leaves the
field at zero and never produces an error; the documented example headers
yield `{limit := 10, remaining := 9, reset := 1}`. -/
theorem parseRateLimitHeaders_fields (resp : HTTPResponse) :
    (parseRateLimitHeaders resp).limit
        = claimedRateLimitField resp HeaderRateLimitLimit ∧
    (parseRateLimitHeaders resp).remaining
        = claimedRateLimitField resp HeaderRateLimitRemaining ∧
    (parseRateLimitHeaders resp).reset
        = claimedRateLimitField resp HeaderRateLimitReset ∧
    parseRateLimitHeaders exampleRateLimitResp
        = { limit := 10, remaining := 9, reset := 1 } := by
  refine ⟨?_, ?_, ?_, by decide⟩
  · rw [parseRateLimitHeaders, parseResetHeader_limit, parseRemainingHeader_limit]
    exact parseLimitHeader_limit resp {} rfl
  · rw [parseRateLimitHeaders, parseResetHeader_remaining]
    exact parseRemainingHeader_remaining resp _ (parseLimitHeader_remaining resp {})
  · exact parseResetHeader_reset resp _
      (by rw [parseRemainingHeader_reset]; exact parseLimitHeader_reset resp {})

/-- C3 counterexample: with a base URL that already ends in "/" and an
endpoint that already starts with "/", the joined path keeps both slashes,
so it is not the single-separator join the claim promises. -/
theorem buildRequestPath_double_slash_cex :
    buildRequestPath "res/v1/" "/web/search" = "res/v1//web/search" ∧
    goContains (buildRequestPath "res/v1/" "/web/search") "//" = true ∧
    buildRequestPath "res/v1/" "/web/search" ≠ "res/v1/web/search" := by
  refine ⟨by decide, by decide, by decide⟩

/-- C3 (amended): the URL builder inserts exactly one "/" when neither the
base URL ends with one nor the endpoint starts with one, and otherwise
concatenates the two strings unchanged — so when exactly one side carries a
slash there is exactly one separator, but a trailing slash on the base
together with a leading slash on the endpoint yields a double slash. -/
theorem buildRequestPath_separator_cases (base ep : String) :
    (goHasSuffix base "/" = false → goHasPrefix ep "/" = false →
      buildRequestPath base ep = base ++ "/" ++ ep) ∧
    (goHasSuffix base "/" = true ∨ goHasPrefix ep "/" = true →
      buildRequestPath base ep = base ++ ep) := by
  constructor
  · intro h1 h2
    simp [buildRequestPath, h1, h2]
  · intro h
    rcases h with h | h <;> simp [buildRequestPath, h]

theorem buildRequestPath_separator_witness :
    buildRequestPath "res/v1" "web/search" = "res/v1" ++ "/" ++ "web/search" :=
  (buildRequestPath_separator_cases "res/v1" "web/search").1 (by decide) (by decide)

/-- C10: every response accessor is total on degenerate inputs: a nil
response or a nil web section gives an empty result list, count 0, no first
result, and an empty-result verdict (also for an empty results slice); a nil
response or nil query section gives `HasMoreResults = false`. -/
theorem response_accessors_total (resp : WebSearchResponse) :
    GetWebResults none = [] ∧
    (resp.web = none → GetWebResults (some resp) = []) ∧
    GetResultCount none = 0 ∧
    (resp.web = none → GetResultCount (some resp) = 0) ∧
    GetFirstResult none = none ∧
    (resp.web = none → GetFirstResult (some resp) = none) ∧
    IsWebResultEmpty none = true ∧
    (resp.web = none → IsWebResultEmpty (some resp) = true) ∧
    (∀ w, resp.web = some w → w.results = [] → IsWebResultEmpty (some resp) = true) ∧
    HasMoreResults none = false ∧
    (resp.query = none → HasMoreResults (some resp) = false) := by
  refine ⟨rfl, ?_, rfl, ?_, rfl, ?_, rfl, ?_, ?_, rfl, ?_⟩
  · intro h; simp [GetWebResults, h]
  · intro h; simp [GetResultCount, h]
  · intro h; simp [GetFirstResult, h]
  · intro h; simp [IsWebResultEmpty, h]
  · intro w hw hres; simp [IsWebResultEmpty, hw, hres]
  · intro h; simp [HasMoreResults, h]

theorem response_accessors_total_witness :
    GetWebResults (some ({} : WebSearchResponse)) = [] ∧
    HasMoreResults (some ({} : WebSearchResponse)) = false :=
  ⟨(response_accessors_total {}).2.1 rfl,
   (response_accessors_total {}).2.2.2.2.2.2.2.2.2.2 rfl⟩

/-- C7: a 401 final response classifies as an auth error and not as a
rate-limit error; a 429 the reverse; and each classification helper accepts
an `APIError` either by its wrapped error kind or by its numeric status code
(401 for auth, 429 for rate limit, ≥ 500 for server error), so no message
text is consulted. -/
theorem httpError_classification (resp : HTTPResponse) :
    (resp.statusCode = 401 →
      IsAuthError (.api (NewHTTPError resp)) = true ∧
      IsRateLimitError (.api (NewHTTPError resp)) = false) ∧
    (resp.statusCode = 429 →
      IsRateLimitError (.api (NewHTTPError resp)) = true ∧
      IsAuthError (.api (NewHTTPError resp)) = false) ∧
    (∀ a : APIError,
      IsRateLimitError (.api a)
          = (errKindIs a.err .rateLimit || a.statusCode == 429) ∧
      IsAuthError (.api a)
          = (errKindIs a.err .unauthorized || errKindIs a.err .invalidAPIKey
              || a.statusCode == 401) ∧
      IsServerError (.api a)
          = (errKindIs a.err .serverError || decide (500 ≤ a.statusCode))) := by
  refine ⟨?_, ?_, fun a => ⟨rfl, ?_, rfl⟩⟩
  · intro h
    constructor
    · simp [IsAuthError, findAPIError, NewHTTPError, errKindIs, h]
    · simp [IsRateLimitError, findAPIError, NewHTTPError, errKindIs, h]
  · intro h
    constructor
    · simp [IsRateLimitError, findAPIError, NewHTTPError, errKindIs, h]
    · simp [IsAuthError, findAPIError, NewHTTPError, errKindIs, h]
  · simp [IsAuthError, findAPIError, errKindIs, Bool.or_assoc]

theorem httpError_classification_witness :
    IsAuthError (.api (NewHTTPError cexResp401)) = true ∧
    IsRateLimitError (.api (NewHTTPError cexResp401)) = false :=
  (httpError_classification cexResp401).1 rfl

/-- Helper for C8: `applyOptions` is sequential — running an appended list is
running the first list, then (on success) the second from the reached
configuration. -/
theorem applyOptions_append (l1 : List ClientOption) :
    ∀ (cfg : ClientConfig) (l2 : List ClientOption),
      applyOptions cfg (l1 ++ l2) =
        match applyOptions cfg l1 with
        | .ok c => applyOptions c l2
        | .error e => .error e := by
  induction l1 with
  | nil => intro cfg l2; simp [applyOptions]
  | cons o rest ih =>
    intro cfg l2
    simp only [List.cons_append, applyOptions]
    cases o cfg with
    | error e => rfl
    | ok c => exact ih c l2

/-- C8: client construction rejects an empty API key before touching any
option; options are applied sequentially in the order given; and a failing
option (such as `WithRetries` with a negative count, which reports
`ErrInvalidParameters`) aborts construction with its error no matter what
options follow it. -/
theorem newClient_option_order :
    (∀ options, NewClient "" options = .error (.sentinel .missingAPIKey)) ∧
    (∀ (cfg : ClientConfig) (l1 l2 : List ClientOption),
      applyOptions cfg (l1 ++ l2) =
        match applyOptions cfg l1 with
        | .ok c => applyOptions c l2
        | .error e => .error e) ∧
    (∀ (apiKey : String) (opts rest : List ClientOption) (r : Int)
        (c : ClientConfig), apiKey ≠ "" → r < 0 →
      applyOptions (defaultClientConfig apiKey) opts = .ok c →
      NewClient apiKey (opts ++ WithRetries r :: rest)
        = .error (.sentinel .invalidParameters)) := by
  refine ⟨fun options => rfl, fun cfg l1 l2 => applyOptions_append l1 cfg l2,
    fun apiKey opts rest r c hkey hr hok => ?_⟩
  rw [NewClient, if_neg hkey, applyOptions_append, hok]
  simp [applyOptions, WithRetries, hr]

theorem newClient_option_order_witness :
    NewClient "test-api-key" ([] ++ WithRetries (-1) :: [WithTimeout 60])
      = .error (.sentinel .invalidParameters) :=
  newClient_option_order.2.2 "test-api-key" [] [WithTimeout 60] (-1)
    (defaultClientConfig "test-api-key") (by decide) (by decide) rfl

theorem mem_ite_nil {α : Type} {c : Prop} [Decidable c] {a : α} {l : List α} :
    (a ∈ if c then l else []) ↔ c ∧ a ∈ l := by
  split <;> simp_all

/-- Helper for C4/C9: a pair is among the query values exactly when its
segment's guard holds and it is that segment's pair. -/
theorem mem_buildRequestValues (p : WebSearchParams) (x : String × String) :
    x ∈ buildRequestValues p ↔
      (p.query ≠ "" ∧ x = ("q", p.query)) ∨
      (p.country ≠ "" ∧ x = ("country", p.country)) ∨
      (p.searchLang ≠ "" ∧ x = ("search_lang", p.searchLang)) ∨
      (p.uiLang ≠ "" ∧ x = ("ui_lang", p.uiLang)) ∨
      (p.count > 0 ∧ x = ("count", toString p.count)) ∨
      (p.offset > 0 ∧ x = ("offset", toString p.offset)) ∨
      (p.safeSearch ≠ "" ∧ x = ("safesearch", p.safeSearch)) ∨
      (p.freshness ≠ "" ∧ x = ("freshness", p.freshness)) ∨
      x = ("text_decorations", formatBool p.textDecorations) ∨
      x = ("spellcheck", formatBool p.spellcheck) ∨
      (p.resultFilter ≠ "" ∧ x = ("result_filter", p.resultFilter)) ∨
      (p.goggles ≠ "" ∧ x = ("goggles", p.goggles)) ∨
      (p.units ≠ "" ∧ x = ("units", p.units)) ∨
      (p.extraSnippets = true ∧ x = ("extra_snippets", "true")) ∨
      (p.summary = true ∧ x = ("summary", "true")) := by
  simp [buildRequestValues, mem_ite_nil, List.mem_append]

/-- C4: the query string always carries `text_decorations` and `spellcheck`
(with value "true"/"false" from the flag, even when false); carries
`extra_snippets`/`summary` only when those flags are true (then with value
"true"); omits every empty string field and non-positive count/offset; and
serializes each set field under exactly its documented wire name (for
example freshness week is sent as `freshness=pw`). -/
theorem buildRequestValues_serialization (p : WebSearchParams) :
    ("text_decorations", formatBool p.textDecorations) ∈ buildRequestValues p ∧
    ("spellcheck", formatBool p.spellcheck) ∈ buildRequestValues p ∧
    (p.extraSnippets = true → ("extra_snippets", "true") ∈ buildRequestValues p) ∧
    (p.extraSnippets = false → ∀ v, ("extra_snippets", v) ∉ buildRequestValues p) ∧
    (p.summary = true → ("summary", "true") ∈ buildRequestValues p) ∧
    (p.summary = false → ∀ v, ("summary", v) ∉ buildRequestValues p) ∧
    (p.query ≠ "" → ("q", p.query) ∈ buildRequestValues p) ∧
    (p.query = "" → ∀ v, ("q", v) ∉ buildRequestValues p) ∧
    (p.country ≠ "" → ("country", p.country) ∈ buildRequestValues p) ∧
    (p.country = "" → ∀ v, ("country", v) ∉ buildRequestValues p) ∧
    (p.searchLang ≠ "" → ("search_lang", p.searchLang) ∈ buildRequestValues p) ∧
    (p.searchLang = "" → ∀ v, ("search_lang", v) ∉ buildRequestValues p) ∧
    (p.uiLang ≠ "" → ("ui_lang", p.uiLang) ∈ buildRequestValues p) ∧
    (p.uiLang = "" → ∀ v, ("ui_lang", v) ∉ buildRequestValues p) ∧
    (p.safeSearch ≠ "" → ("safesearch", p.safeSearch) ∈ buildRequestValues p) ∧
    (p.safeSearch = "" → ∀ v, ("safesearch", v) ∉ buildRequestValues p) ∧
    (p.freshness ≠ "" → ("freshness", p.freshness) ∈ buildRequestValues p) ∧
    (p.freshness = "" → ∀ v, ("freshness", v) ∉ buildRequestValues p) ∧
    (p.resultFilter ≠ "" → ("result_filter", p.resultFilter) ∈ buildRequestValues p) ∧
    (p.resultFilter = "" → ∀ v, ("result_filter", v) ∉ buildRequestValues p) ∧
    (p.goggles ≠ "" → ("goggles", p.goggles) ∈ buildRequestValues p) ∧
    (p.goggles = "" → ∀ v, ("goggles", v) ∉ buildRequestValues p) ∧
    (p.units ≠ "" → ("units", p.units) ∈ buildRequestValues p) ∧
    (p.units = "" → ∀ v, ("units", v) ∉ buildRequestValues p) ∧
    (p.count > 0 → ("count", toString p.count) ∈ buildRequestValues p) ∧
    (¬ p.count > 0 → ∀ v, ("count", v) ∉ buildRequestValues p) ∧
    (p.offset > 0 → ("offset", toString p.offset) ∈ buildRequestValues p) ∧
    (¬ p.offset > 0 → ∀ v, ("offset", v) ∉ buildRequestValues p) ∧
    (p.freshness = FreshnessWeek → ("freshness", "pw") ∈ buildRequestValues p) := by
  refine ⟨?_, ?_, ?_, ?_, ?_, ?_, ?_, ?_, ?_, ?_, ?_, ?_, ?_, ?_, ?_, ?_, ?_,
    ?_, ?_, ?_, ?_, ?_, ?_, ?_, ?_, ?_, ?_, ?_, ?_⟩ <;>
  first
    | (simp [mem_buildRequestValues]; done)
    | (intro h; simp [mem_buildRequestValues, FreshnessWeek, h])

/-- A fully populated parameter value used to witness C4. -/
def witnessParams : WebSearchParams :=
  { query := "test query"
    country := "JP"
    searchLang := "ja"
    uiLang := "ja-JP"
    count := 10
    offset := 2
    safeSearch := SafeSearchStrict
    freshness := FreshnessWeek
    textDecorations := true
    spellcheck := false
    resultFilter := ResultFilterNews
    goggles := "custom-goggle"
    units := UnitMetric
    extraSnippets := true
    summary := true }

theorem buildRequestValues_serialization_witness :
    ("freshness", "pw") ∈ buildRequestValues witnessParams ∧
    ("text_decorations", formatBool true) ∈ buildRequestValues witnessParams ∧
    ("q", "test query") ∈ buildRequestValues witnessParams ∧
    ("extra_snippets", "true") ∈ buildRequestValues witnessParams := by
  obtain ⟨h1, h2, h3, h4, h5, h6, h7, h8, h9, h10, h11, h12, h13, h14, h15,
    h16, h17, h18, h19, h20, h21, h22, h23, h24, h25, h26, h27, h28, h29⟩ :=
    buildRequestValues_serialization witnessParams
  exact ⟨h29 rfl, h1, h7 (by decide), h3 rfl⟩

/-- Helper for C9: the defaulting step never touches the boolean flags or
the offset of caller-supplied params. -/
theorem resolveParams_preserves (cfg : ClientConfig) (q : String)
    (p : WebSearchParams) :
    (resolveParams cfg q (some p)).textDecorations = p.textDecorations ∧
    (resolveParams cfg q (some p)).spellcheck = p.spellcheck ∧
    (resolveParams cfg q (some p)).offset = p.offset := by
  refine ⟨?_, ?_, ?_⟩
  · simp [resolveParams, apply_ite (WebSearchParams.textDecorations)]
  · simp [resolveParams, apply_ite (WebSearchParams.spellcheck)]
  · simp [resolveParams, apply_ite (WebSearchParams.offset)]

/-- Helper for C9: with nil params the resolved flags are the zero values. -/
theorem resolveParams_none_flags (cfg : ClientConfig) (q : String) :
    (resolveParams cfg q none).textDecorations = false ∧
    (resolveParams cfg q none).spellcheck = false ∧
    (resolveParams cfg q none).offset = 0 := by
  refine ⟨?_, ?_, ?_⟩
  · simp [resolveParams, apply_ite (WebSearchParams.textDecorations)]
  · simp [resolveParams, apply_ite (WebSearchParams.spellcheck)]
  · simp [resolveParams, apply_ite (WebSearchParams.offset)]

/-- C9: with nil params (or params whose flags are unset) a valid query
produces a request whose query string carries `text_decorations=false` and
`spellcheck=false` and no `offset` key: `WebSearch`'s defaulting fills only
country, search language, UI language, count and safe-search, never the
constructor defaults `DefaultTextDecor`/`DefaultSpellCheck`, which only
`NewWebSearchParams` applies. -/
theorem webSearch_defaulting_flags (cfg : ClientConfig)
    (transport : Nat → TransportOutcome) (ctxDone : Nat → Bool) (q : String)
    (hq : q ≠ "") (hlen : ¬(goLen q > 400 ∨ (goFields q).length > 50)) :
    (WebSearch cfg transport ctxDone q none).request
        = some (buildRequestPath cfg.baseURL WebSearchEndpoint,
                buildRequestValues (resolveParams cfg q none)) ∧
    ("text_decorations", "false") ∈ buildRequestValues (resolveParams cfg q none) ∧
    ("spellcheck", "false") ∈ buildRequestValues (resolveParams cfg q none) ∧
    (∀ v, ("offset", v) ∉ buildRequestValues (resolveParams cfg q none)) ∧
    (∀ p : WebSearchParams,
      (resolveParams cfg q (some p)).textDecorations = p.textDecorations ∧
      (resolveParams cfg q (some p)).spellcheck = p.spellcheck ∧
      (resolveParams cfg q (some p)).offset = p.offset) ∧
    NewWebSearchParams.textDecorations = DefaultTextDecor ∧
    NewWebSearchParams.spellcheck = DefaultSpellCheck ∧
    DefaultTextDecor = true ∧ DefaultSpellCheck = true := by
  obtain ⟨htd, hsc, hoff⟩ := resolveParams_none_flags cfg q
  have h1 : ¬ goLen q > 400 := fun hh => hlen (Or.inl hh)
  have h2 : ¬ (goFields q).length > 50 := fun hh => hlen (Or.inr hh)
  refine ⟨?_, ?_, ?_, ?_, resolveParams_preserves cfg q, rfl, rfl, rfl, rfl⟩
  · simp only [WebSearch, if_neg hq]
    simp only [h1, h2, decide_False, Bool.or_self, Bool.false_eq_true, if_false]
    cases hmr : (makeRequest cfg transport ctxDone).result <;> simp [hmr]
  · have : ("text_decorations", formatBool (resolveParams cfg q none).textDecorations)
        ∈ buildRequestValues (resolveParams cfg q none) :=
      ((mem_buildRequestValues _ _).mpr (by simp))
    simpa [htd, formatBool] using this
  · have : ("spellcheck", formatBool (resolveParams cfg q none).spellcheck)
        ∈ buildRequestValues (resolveParams cfg q none) :=
      ((mem_buildRequestValues _ _).mpr (by simp))
    simpa [hsc, formatBool] using this
  · intro v
    simp [mem_buildRequestValues, hoff]

theorem webSearch_defaulting_flags_witness :
    ("text_decorations", "false")
        ∈ buildRequestValues (resolveParams (defaultClientConfig "k") "go" none) ∧
    (∀ v, ("offset", v)
        ∉ buildRequestValues (resolveParams (defaultClientConfig "k") "go" none)) := by
  obtain ⟨h1, h2, h3, h4, h5⟩ :=
    webSearch_defaulting_flags (defaultClientConfig "k")
      (fun _ => TransportOutcome.err 0) (fun _ => false) "go"
      (by decide) (by decide)
  exact ⟨h2, h4⟩

/-- A string has at least as many UTF-8 bytes as characters. -/
theorem length_le_utf8Len (l : List Char) : l.length ≤ utf8Len l := by
  induction l with
  | nil => simp [utf8Len]
  | cons c rest ih =>
    have hc : 0 < c.utf8Size := Char.utf8Size_pos c
    simp only [List.length_cons, utf8Len]
    omega

theorem length_le_goLen (s : String) : s.length ≤ goLen s :=
  length_le_utf8Len s.data

/-- C2: `WebSearch` with an empty query fails with `ErrEmptyQuery` for every
params value, and with a query of more than 400 characters or more than 50
whitespace-separated tokens fails with `ErrQueryTooLong`; in both cases no
request is built and no HTTP attempt is made (the empty-query check runs
first). -/
theorem webSearch_validation (cfg : ClientConfig)
    (transport : Nat → TransportOutcome) (ctxDone : Nat → Bool)
    (params : Option WebSearchParams) :
    (WebSearch cfg transport ctxDone "" params
        = { result := .error (.sentinel .emptyQuery), attempts := 0,
            request := none, rateLimitParsed := none }) ∧
    (∀ q, 400 < q.length ∨ 50 < (goFields q).length →
      WebSearch cfg transport ctxDone q params
        = { result := .error (.sentinel .queryTooLong), attempts := 0,
            request := none, rateLimitParsed := none }) := by
  constructor
  · rfl
  · intro q h
    have hq : q ≠ "" := by
      rintro rfl
      simp [goFields, fieldsAux] at h
    have hcond : goLen q > 400 ∨ (goFields q).length > 50 :=
      h.imp (fun hh => lt_of_lt_of_le hh (length_le_goLen q)) id
    rcases hcond with hh | hh
    · simp [WebSearch, hq, hh]
    · simp [WebSearch, hq, hh]

theorem webSearch_validation_witness :
    (WebSearch (defaultClientConfig "k") (fun _ => TransportOutcome.err 0)
        (fun _ => false) "" none
      = { result := .error (.sentinel .emptyQuery), attempts := 0,
          request := none, rateLimitParsed := none }) ∧
    (WebSearch (defaultClientConfig "k") (fun _ => TransportOutcome.err 0)
        (fun _ => false)
        "a a a a a a a a a a a a a a a a a a a a a a a a a a a a a a a a a a a a a a a a a a a a a a a a a a a"
        none
      = { result := .error (.sentinel .queryTooLong), attempts := 0,
          request := none, rateLimitParsed := none }) :=
  ⟨(webSearch_validation (defaultClientConfig "k") (fun _ => TransportOutcome.err 0)
      (fun _ => false) none).1,
   (webSearch_validation (defaultClientConfig "k") (fun _ => TransportOutcome.err 0)
      (fun _ => false) none).2 _ (Or.inr (by decide))⟩

/-- If every attempt up to the budget is retriable and the context never
fires, the loop runs to its last allowed attempt and reports its outcome. -/
theorem retryLoopAux_all_retriable (transport : Nat → TransportOutcome)
    (ctxDone : Nat → Bool) (hc : ∀ i, ctxDone i = false) :
    ∀ (rem attempt : Nat),
      (∀ i, attempt ≤ i → i ≤ attempt + rem → retriable (transport i) = true) →
      retryLoopAux transport ctxDone attempt rem =
        match transport (attempt + rem) with
        | .err id => .errTransport id (attempt + rem + 1)
        | .resp r => .errHTTP r (attempt + rem + 1) := by
  intro rem
  induction rem with
  | zero =>
    intro attempt hall
    have h0 := hall attempt le_rfl (by omega)
    simp only [Nat.add_zero]
    simp only [retryLoopAux]
    cases ht : transport attempt with
    | err id => rfl
    | resp r =>
      rw [ht] at h0
      simp only [retriable, decide_eq_true_eq] at h0
      have hnlt : ¬ r.statusCode < 500 := by omega
      simp [hnlt]
  | succ rem ih =>
    intro attempt hall
    have h0 := hall attempt le_rfl (by omega)
    have hrec := ih (attempt + 1)
      (fun i hi1 hi2 => hall i (by omega) (by omega))
    have harith : attempt + 1 + rem = attempt + (rem + 1) := by omega
    rw [harith] at hrec
    simp only [retryLoopAux, hc attempt, if_false, Bool.false_eq_true]
    cases ht : transport attempt with
    | err id => exact hrec
    | resp r =>
      rw [ht] at h0
      simp only [retriable, decide_eq_true_eq] at h0
      have hnlt : ¬ r.statusCode < 500 := by omega
      simpa [hnlt] using hrec

/-- If the first non-retriable attempt is attempt `k` (within budget) and it
is a response with status below 500, the loop breaks there. -/
theorem retryLoopAux_break (transport : Nat → TransportOutcome)
    (ctxDone : Nat → Bool) (hc : ∀ i, ctxDone i = false) :
    ∀ (k rem attempt : Nat) (r : HTTPResponse), k ≤ rem →
      (∀ i, attempt ≤ i → i < attempt + k → retriable (transport i) = true) →
      transport (attempt + k) = .resp r → r.statusCode < 500 →
      retryLoopAux transport ctxDone attempt rem = .broke r (attempt + k + 1) := by
  intro k
  induction k with
  | zero =>
    intro rem attempt r _ _ ht hlt
    rw [Nat.add_zero] at ht
    simp only [Nat.add_zero]
    cases rem with
    | zero => simp only [retryLoopAux, ht]; simp [hlt]
    | succ rem => simp only [retryLoopAux, ht]; simp [hlt]
  | succ k ih =>
    intro rem attempt r hk hall ht hlt
    obtain ⟨rem', rfl⟩ : ∃ rem', rem = rem' + 1 := ⟨rem - 1, by omega⟩
    have h0 := hall attempt le_rfl (by omega)
    have hrec := ih rem' (attempt + 1) r (by omega)
      (fun i hi1 hi2 => hall i (by omega) (by omega))
      (by rw [show attempt + 1 + k = attempt + (k + 1) from by omega]; exact ht)
      hlt
    have harith : attempt + 1 + k + 1 = attempt + (k + 1) + 1 := by omega
    rw [harith] at hrec
    simp only [retryLoopAux, hc attempt, if_false, Bool.false_eq_true]
    cases htt : transport attempt with
    | err id => exact hrec
    | resp r' =>
      rw [htt] at h0
      simp only [retriable, decide_eq_true_eq] at h0
      have hnlt : ¬ r'.statusCode < 500 := by omega
      simpa [hnlt] using hrec

/-- C1: with `maxRetries = N` and a transport whose every outcome is
retriable (transport failure or status ≥ 500) and a context that never
fires, `makeRequest` issues exactly `N + 1` attempts and returns the last
attempt's transport error if there was one, otherwise the `APIError` derived
from the last response — and `WebSearch` on a valid query surfaces the same
error after the same attempts.  Conversely, an attempt whose transport
succeeds with status < 500 ends the loop at once: only `k + 1` attempts are
issued when attempt `k` is the first such. -/
theorem makeRequest_retry_exhaustion_and_break (cfg : ClientConfig)
    (transport : Nat → TransportOutcome) (ctxDone : Nat → Bool) (N : Nat)
    (hN : cfg.maxRetries = (N : Int)) (hc : ∀ i, ctxDone i = false) :
    ((∀ i, i ≤ N → retriable (transport i) = true) →
      (makeRequest cfg transport ctxDone).attempts = N + 1 ∧
      (makeRequest cfg transport ctxDone).result
          = .error (lastAttemptError (transport N)) ∧
      (∀ q params, q ≠ "" → ¬(goLen q > 400 ∨ (goFields q).length > 50) →
        (WebSearch cfg transport ctxDone q params).result
            = .error (lastAttemptError (transport N)) ∧
        (WebSearch cfg transport ctxDone q params).attempts = N + 1)) ∧
    (∀ k r, k ≤ N → (∀ i, i < k → retriable (transport i) = true) →
      transport k = .resp r → r.statusCode < 500 →
      (makeRequest cfg transport ctxDone).attempts = k + 1) := by
  have hmr0 : ¬ cfg.maxRetries < 0 := by rw [hN]; omega
  have htn : cfg.maxRetries.toNat = N := by rw [hN]; simp
  constructor
  · intro hall
    have hloop := retryLoopAux_all_retriable transport ctxDone hc N 0
      (fun i hi1 hi2 => hall i (by omega))
    simp only [Nat.zero_add] at hloop
    have hout : makeRequest cfg transport ctxDone =
        match transport N with
        | .err id =>
          { result := .error (.transport id), attempts := N + 1,
            rateLimitParsed := none }
        | .resp r =>
          { result := .error (.api (NewHTTPError r)), attempts := N + 1,
            rateLimitParsed := none } := by
      simp only [makeRequest, if_neg hmr0, htn, retryLoop, hloop]
      cases transport N <;> rfl
    cases ht : transport N with
    | err id =>
      rw [ht] at hout
      refine ⟨by rw [hout], by rw [hout]; simp [lastAttemptError, ht], ?_⟩
      intro q params hq hlen
      have h1 : ¬ goLen q > 400 := fun hh => hlen (Or.inl hh)
      have h2 : ¬ (goFields q).length > 50 := fun hh => hlen (Or.inr hh)
      simp only [WebSearch, if_neg hq]
      simp only [h1, h2, decide_False, Bool.or_self, Bool.false_eq_true, if_false]
      rw [hout]
      exact ⟨by simp [lastAttemptError, ht], by simp⟩
    | resp r =>
      rw [ht] at hout
      refine ⟨by rw [hout], by rw [hout]; simp [lastAttemptError, ht], ?_⟩
      intro q params hq hlen
      have h1 : ¬ goLen q > 400 := fun hh => hlen (Or.inl hh)
      have h2 : ¬ (goFields q).length > 50 := fun hh => hlen (Or.inr hh)
      simp only [WebSearch, if_neg hq]
      simp only [h1, h2, decide_False, Bool.or_self, Bool.false_eq_true, if_false]
      rw [hout]
      exact ⟨by simp [lastAttemptError, ht], by simp⟩
  · intro k r hk hall ht hlt
    have hloop := retryLoopAux_break transport ctxDone hc k N 0 r hk
      (fun i hi1 hi2 => hall i (by omega)) (by simpa using ht) hlt
    simp only [Nat.zero_add] at hloop
    simp only [makeRequest, if_neg hmr0, htn, retryLoop, hloop]
    split
    · rfl
    · split
      · rfl
      · cases r.decoded <;> rfl

theorem makeRequest_retry_witness :
    (makeRequest { maxRetries := 2 }
        (fun _ => TransportOutcome.resp cexResp503) (fun _ => false)).attempts
      = 2 + 1 ∧
    (makeRequest { maxRetries := 2 }
        (fun _ => TransportOutcome.resp cexResp503) (fun _ => false)).result
      = .error (lastAttemptError (TransportOutcome.resp cexResp503)) := by
  have h := (makeRequest_retry_exhaustion_and_break { maxRetries := 2 }
    (fun _ => TransportOutcome.resp cexResp503) (fun _ => false) 2 rfl
    (fun _ => rfl)).1 (fun _ _ => by decide)
  exact ⟨h.1, h.2.1⟩

/-- C5 counterexample: a final response is received (status 401, with
parseable rate-limit headers) and classified, yet no rate-limit extraction
is performed — `makeRequest` returns from its non-200 branch before reaching
`parseRateLimitHeaders`. -/
theorem makeRequest_rateLimit_skipped_on_401_cex :
    (makeRequest { maxRetries := 0 }
        (fun _ => TransportOutcome.resp cexResp401) (fun _ => false)).rateLimitParsed
      = none ∧
    (makeRequest { maxRetries := 0 }
        (fun _ => TransportOutcome.resp cexResp401) (fun _ => false)).result
      = .error (.api (NewHTTPError cexResp401)) ∧
    parseRateLimitHeaders cexResp401 = { limit := 10, remaining := 9, reset := 1 } := by
  refine ⟨rfl, rfl, by decide⟩

/-- C5 (amended): rate-limit header extraction is performed exactly when the
retry loop breaks with a response of status 200 (and then on that final
response, before body decoding); for a non-200 final status, a transport
failure, exhausted retries, or cancellation, no extraction happens. -/
theorem makeRequest_rateLimit_parse_iff_200 (cfg : ClientConfig)
    (transport : Nat → TransportOutcome) (ctxDone : Nat → Bool)
    (h0 : 0 ≤ cfg.maxRetries) :
    ((makeRequest cfg transport ctxDone).rateLimitParsed.isSome = true ↔
      (∃ r n, retryLoop transport ctxDone cfg.maxRetries.toNat = .broke r n ∧
        r.statusCode = 200)) ∧
    (∀ r n, retryLoop transport ctxDone cfg.maxRetries.toNat = .broke r n →
      r.statusCode = 200 →
      (makeRequest cfg transport ctxDone).rateLimitParsed
        = some (parseRateLimitHeaders r)) := by
  have hneg : ¬ cfg.maxRetries < 0 := by omega
  cases hL : retryLoop transport ctxDone cfg.maxRetries.toNat with
  | broke r n =>
    simp only [makeRequest, if_neg hneg, hL]
    by_cases h200 : r.statusCode = 200
    · rw [if_neg (by simp [h200])]
      constructor
      · constructor
        · intro _
          exact ⟨r, n, rfl, h200⟩
        · intro _
          split
          · rfl
          · cases r.decoded <;> rfl
      · intro r' n' heq h200'
        obtain ⟨rfl, rfl⟩ : r = r' ∧ n = n' := by simpa using heq
        split
        · rfl
        · cases r.decoded <;> rfl
    · rw [if_pos (by simp [h200])]
      constructor
      · simp only [Option.isSome_none, Bool.false_eq_true, false_iff]
        rintro ⟨r', n', heq, h200'⟩
        obtain ⟨rfl, rfl⟩ : r = r' ∧ n = n' := by simpa using heq
        exact h200 h200'
      · intro r' n' heq h200'
        obtain ⟨rfl, rfl⟩ : r = r' ∧ n = n' := by simpa using heq
        exact absurd h200' h200
  | errTransport id n =>
    simp only [makeRequest, if_neg hneg, hL]
    refine ⟨by simp, ?_⟩
    intro r' n' heq
    simp at heq
  | errHTTP r n =>
    simp only [makeRequest, if_neg hneg, hL]
    refine ⟨by simp, ?_⟩
    intro r' n' heq
    simp at heq
  | cancelled n =>
    simp only [makeRequest, if_neg hneg, hL]
    refine ⟨by simp, ?_⟩
    intro r' n' heq
    simp at heq

theorem makeRequest_rateLimit_parse_witness :
    (makeRequest { maxRetries := 0 }
        (fun _ => TransportOutcome.resp exampleRateLimitResp)
        (fun _ => false)).rateLimitParsed
      = some (parseRateLimitHeaders exampleRateLimitResp) :=
  (makeRequest_rateLimit_parse_iff_200 { maxRetries := 0 }
      (fun _ => TransportOutcome.resp exampleRateLimitResp) (fun _ => false)
      (by decide)).2
    exampleRateLimitResp 1 (by decide) rfl

end BraveSearch
